import Mathlib

/-!
The query store of MaxGUI (`maxgui/src/store/query.js`)

A shallow embedding of the Vuex module that owns the SQL connection mapping,
the lazily loaded schema tree, the completion list and the three result slots.

* The module state, the two `sessionStorage` items, the `conn_id_body` cookie,
  the snack bar of the root store and the logger are the fields of `Store`.
* A mutation is a function `Store → Store`; a mutation that can throw returns
  `Option Store`, `none` standing for the exception.
* An action is a function of the store, its argument and the answers of the
  remote endpoint to the requests it issues.  The part of an action that runs
  before its `await` is its `_request` function, the part that runs when the
  answer arrives is its `_response` function.
* JavaScript objects that the code looks up by identity (`indexOf`) carry the
  address of the object in a field `ref`; `nextRef` is the next free address.

`rc_target_names_map`, `curr_query_mode` and the actions `fetchRcTargetNames`
and `setCurrQueryMode` touch nothing else and are left out.
-/

namespace QueryStore

/-! ## Data model -/

/-- Column node pushed onto `tblChildren` by `fetchCols` (it has no `children`). -/
structure ColNode where
  name : String
  dataType : String
  type : String
  id : String
deriving DecidableEq, Repr

/-- Table node pushed onto `dbChilren` by `fetchTables`. -/
structure TblNode where
  ref : Nat
  type : String
  name : String
  id : String
  children : List ColNode
deriving DecidableEq, Repr

/-- Schema node pushed onto `dbTree` by `fetchDbList`. -/
structure DbNode where
  ref : Nat
  type : String
  name : String
  id : String
  children : List TblNode
deriving DecidableEq, Repr

/-- Entry of `db_completion_list`. -/
structure CompletionEntry where
  label : String
  detail : String
  insertText : String
  type : String
deriving DecidableEq, Repr

/-- One element of `res.data.data.attributes.results`; `data = none` is a
result object without a `data` array. -/
structure ResultSet (ρ : Type) where
  data : Option (List ρ)
deriving DecidableEq, Repr

/-- What `await this.vue.$axios.post(url, body)` yields for a query request. -/
inductive HttpResponse (ρ : Type) where
  /-- the promise rejects (network error, status outside 2xx) -/
  | rejected
  /-- the promise resolves and `res.data` is falsy -/
  | noData
  /-- `res.data` is there but `res.data.data.attributes.results` cannot be read -/
  | malformed
  /-- `res.data.data.attributes.results` is the given array -/
  | ok (results : List (ResultSet ρ))
deriving DecidableEq, Repr

/-- What `await this.vue.$axios.post('/sql?persist=yes', body)` yields:
`data = none` when `res.data.data.id` cannot be read. -/
inductive OpenResponse where
  | rejected
  | resolved (status : Nat) (data : Option String)
deriving DecidableEq, Repr

/-- Value of a result slot: the object `{}`, `undefined`, or a frozen result set. -/
inductive Payload where
  | emptyObject
  | undefined
  | resultSet (r : ResultSet (List String))
deriving DecidableEq, Repr

/-- Payload of the root mutation `SET_SNACK_BAR_MESSAGE`. -/
structure SnackBarMessage where
  text : List String
  type : String
deriving DecidableEq, Repr

/-- A plain object with string values, as `query_conn_id_map`: its own keys in order. -/
abbrev ConnMap := List (String × String)

/-- Property read `obj[key]`; `none` is `undefined`. -/
def objGet : ConnMap → String → Option String
  | [], _ => none
  | (k, v) :: m, key => if k = key then some v else objGet m key

/-- Property write `obj[key] = value` on a copy: replaces the value of an own
key where it stands, appends a new key. -/
def objSet : ConnMap → String → String → ConnMap
  | [], key, value => [(key, value)]
  | (k, v) :: m, key, value =>
    if k = key then (key, value) :: m else (k, v) :: objSet m key value

/-- Object spread of a map that may be `null`: `{...null}` has no keys. -/
def spread : Option ConnMap → ConnMap
  | none => []
  | some m => m

/-- A value used as a property key: `null` becomes the key `"null"`. -/
def jsKey : Option String → String
  | none => "null"
  | some s => s

/-- A value interpolated into a template literal: `undefined` prints as `"undefined"`. -/
def jsString : Option String → String
  | none => "undefined"
  | some s => s

/-- An HTTP request handed to `$axios`. -/
structure Request where
  method : String
  url : String
  sql : Option String
deriving DecidableEq, Repr

/-- The module state together with the browser state the actions write through to. -/
structure Store where
  -- state of the module
  query_conn_id_map : Option ConnMap
  curr_cnct_resource_name : Option String
  loading_db_tree : Bool
  db_tree : List DbNode
  db_completion_list : List CompletionEntry
  loading_preview_data : Bool
  preview_data : Payload
  loading_data_details : Bool
  data_details : Payload
  loading_query_result : Bool
  query_result : Payload
  -- sessionStorage items (the map is stored through JSON.stringify / JSON.parse)
  storage_query_conn_id_map : Option ConnMap
  storage_curr_cnct_resource_name : Option String
  -- the cookie conn_id_body is set
  cookie_conn_id_body : Bool
  -- root store and logger
  snack_bar_message : Option SnackBarMessage
  log : List String
  -- next free object address
  nextRef : Nat
deriving DecidableEq, Repr

/-- The state the module starts with, given what the browser holds. -/
def initialStore (storedMap : Option ConnMap) (storedName : Option String) (cookie : Bool) :
    Store :=
  { query_conn_id_map := storedMap
    curr_cnct_resource_name := storedName
    loading_db_tree := false
    db_tree := []
    db_completion_list := []
    loading_preview_data := false
    preview_data := Payload.emptyObject
    loading_data_details := false
    data_details := Payload.emptyObject
    loading_query_result := false
    query_result := Payload.emptyObject
    storage_query_conn_id_map := storedMap
    storage_curr_cnct_resource_name := storedName
    cookie_conn_id_body := cookie
    snack_bar_message := none
    log := []
    nextRef := 0 }

/-! ## Array helpers -/

/-- The method `Array.prototype.findIndex`; `none` is `-1`. -/
def findIndex {α : Type} (p : α → Bool) : List α → Option Nat
  | [] => none
  | x :: xs => if p x then some 0 else (findIndex p xs).map (· + 1)

/-- The call `state.db_tree.indexOf(db)`: the first position holding the object `db`. -/
def dbIndexOf (db_tree : List DbNode) (db : DbNode) : Option Nat :=
  findIndex (fun n => n.ref == db.ref) db_tree

/-- The call `children.indexOf(tbl)`: the first position holding the object `tbl`. -/
def tblIndexOf (children : List TblNode) (tbl : TblNode) : Option Nat :=
  findIndex (fun n => n.ref == tbl.ref) children

/-- The expression `tbl.id.split('.')[0]`: the characters before the first dot. -/
def splitFirst (id : String) : String :=
  String.mk (id.toList.takeWhile (fun c => c != '.'))

/-- The expression `results[0].data` of a query answer; `none` when reading it
(or calling a method on it) throws. -/
def firstData {ρ : Type} : HttpResponse ρ → Option (List ρ)
  | HttpResponse.ok (r :: _) => r.data
  | _ => none

/-- The expression `Object.freeze(res.data.data.attributes.results[0])`; `none`
when reading it throws, `undefined` for an empty `results`. -/
def firstResult : HttpResponse (List String) → Option Payload
  | HttpResponse.ok (r :: _) => some (Payload.resultSet r)
  | HttpResponse.ok [] => some Payload.undefined
  | _ => none

/-- Modelled from the spec: `$help.immutableUpdate` (the helpers file is not
part of the sources) applied to `db_tree` with
`{[dbIndex]: {children: {$set: children}}}`. It merges the result into
the `children` field of that node alone: the array and the node at `dbIndex`
are copied (the copy lives at the address `fresh`), every other node is shared.
Reading a field of the absent node at `-1` throws (`none`). -/
def immutableUpdateChildren (db_tree : List DbNode) (dbIndex : Option Nat)
    (children : List TblNode) (fresh : Nat) : Option (List DbNode) :=
  match dbIndex with
  | none => none
  | some i =>
    match db_tree[i]? with
    | none => none
    | some db => some (db_tree.set i { db with ref := fresh, children := children })

/-- Modelled from the spec: `$help.immutableUpdate` applied to `db_tree` with
`{[dbIndex]: {children: {[tableIndex]: {children: {$set: children}}}}}`.
The schema node is copied to `fresh`, the table node to `fresh + 1`; an absent
node on the path throws (`none`). -/
def immutableUpdateGrandChildren (db_tree : List DbNode) (dbIndex : Option Nat)
    (tableIndex : Option Nat) (children : List ColNode) (fresh : Nat) :
    Option (List DbNode) :=
  match dbIndex, tableIndex with
  | some i, some j =>
    match db_tree[i]? with
    | none => none
    | some db =>
      match db.children[j]? with
      | none => none
      | some tbl =>
        some (db_tree.set i
          { db with
            ref := fresh
            children := db.children.set j { tbl with ref := fresh + 1, children := children } })
  | _, _ => none

/-! ## Mutations -/

def SET_CURR_CNCT_RESOURCE_NAME (s : Store) (payload : Option String) : Store :=
  { s with curr_cnct_resource_name := payload }

def SET_QUERY_CNN_ID_MAP (s : Store) (payload : Option ConnMap) : Store :=
  { s with query_conn_id_map := payload }

def SET_LOADING_DB_TREE (s : Store) (payload : Bool) : Store :=
  { s with loading_db_tree := payload }

def SET_DB_TREE (s : Store) (payload : List DbNode) : Store :=
  { s with db_tree := payload }

def UPDATE_DB_CMPL_LIST (s : Store) (payload : List CompletionEntry) : Store :=
  { s with db_completion_list := s.db_completion_list ++ payload }

def CLEAR_DB_CMPL_LIST (s : Store) : Store :=
  { s with db_completion_list := [] }

def SET_LOADING_PREVIEW_DATA (s : Store) (payload : Bool) : Store :=
  { s with loading_preview_data := payload }

def SET_PREVIEW_DATA (s : Store) (payload : Payload) : Store :=
  { s with preview_data := payload }

def SET_LOADING_DATA_DETAILS (s : Store) (payload : Bool) : Store :=
  { s with loading_data_details := payload }

def SET_DATA_DETAILS (s : Store) (payload : Payload) : Store :=
  { s with data_details := payload }

def SET_LOADING_QUERY_RESULT (s : Store) (payload : Bool) : Store :=
  { s with loading_query_result := payload }

def SET_QUERY_RESULT (s : Store) (payload : Payload) : Store :=
  { s with query_result := payload }

/-- Mutation `UPDATE_DB_CHILDREN`; `none` when `immutableUpdate` throws, in
which case `state.db_tree` is not assigned. -/
def UPDATE_DB_CHILDREN (s : Store) (dbIndex : Option Nat) (children : List TblNode) :
    Option Store :=
  match immutableUpdateChildren s.db_tree dbIndex children s.nextRef with
  | none => none
  | some t => some { s with db_tree := t, nextRef := s.nextRef + 1 }

/-- Mutation `UPDATE_DB_GRAND_CHILDREN`; `none` when `immutableUpdate` throws. -/
def UPDATE_DB_GRAND_CHILDREN (s : Store) (dbIndex : Option Nat) (tableIndex : Option Nat)
    (children : List ColNode) : Option Store :=
  match immutableUpdateGrandChildren s.db_tree dbIndex tableIndex children s.nextRef with
  | none => none
  | some t => some { s with db_tree := t, nextRef := s.nextRef + 2 }

/-- Root mutation `SET_SNACK_BAR_MESSAGE`. -/
def SET_SNACK_BAR_MESSAGE (s : Store) (text : List String) (type : String) : Store :=
  { s with snack_bar_message := some { text := text, type := type } }

/-- The call `this.vue.$logger(name).error(e)`. -/
def logError (s : Store) (name : String) : Store :=
  { s with log := s.log ++ [name] }

/-! ## Actions -/

/-- The expression `state.query_conn_id_map[state.curr_cnct_resource_name]`
inside a template literal; `none` when the map is `null` and the read throws. -/
def connIdText (s : Store) : Option String :=
  match s.query_conn_id_map with
  | none => none
  | some m => some (jsString (objGet m (jsKey s.curr_cnct_resource_name)))

/-- The request `POST /sql/<id>/queries` with the body `{sql}`; `none` when
building the URL throws. -/
def queryRequest (s : Store) (sql : String) : Option Request :=
  match connIdText s with
  | none => none
  | some id => some { method := "POST", url := "/sql/" ++ id ++ "/queries", sql := some sql }

/-- The request of `disconnect`: `DELETE /sql/<id>`. -/
def disconnect_request (s : Store) : Option Request :=
  match connIdText s with
  | none => none
  | some id => some { method := "DELETE", url := "/sql/" ++ id, sql := none }

/-- The rest of `disconnect` once the DELETE has been answered; `deleted` tells
whether the promise resolved. -/
def disconnect_response (s : Store) (deleted : Bool) : Store :=
  if deleted then
    SET_QUERY_CNN_ID_MAP
      { s with storage_query_conn_id_map := none, cookie_conn_id_body := false } none
  else
    logError s "store-query-disconnect"

/-- Action `disconnect`. -/
def disconnect (s : Store) (deleted : Bool) : Store :=
  match disconnect_request s with
  | none => logError s "store-query-disconnect"
  | some _ => disconnect_response s deleted

/-- The array `dbTree` built by the `forEach` of `fetchDbList`; the objects are
allocated from the address `fresh` on. -/
def schemaNodes (fresh : Nat) : List String → List DbNode
  | [] => []
  | db :: rest =>
    { ref := fresh, type := "schema", name := db, id := db, children := [] }
      :: schemaNodes (fresh + 1) rest

/-- The array `dbCmplList` built by the `forEach` of `fetchDbList`. -/
def schemaEntries (dbs : List String) : List CompletionEntry :=
  dbs.map fun db => { label := db, detail := "SCHEMA", insertText := db, type := "schema" }

/-- The request of `fetchDbList`. -/
def fetchDbList_request (s : Store) : Option Request :=
  queryRequest s "SHOW DATABASES"

/-- The `catch` block of `fetchDbList`: the snack bar, `dispatch('disconnect')`
(not awaited: it runs up to its own `await`), the logger, and then the rest of
`disconnect` when the DELETE is answered. -/
def fetchDbList_catch (s : Store) (deleted : Bool) : Store :=
  let s1 := SET_SNACK_BAR_MESSAGE s ["Connection timed out"] "error"
  match disconnect_request s1 with
  | none => logError (logError s1 "store-query-disconnect") "store-query-fetchDbList"
  | some _ => disconnect_response (logError s1 "store-query-fetchDbList") deleted

/-- The rest of `fetchDbList` once the query has been answered. -/
def fetchDbList_response (s : Store) (res : HttpResponse (List String)) (deleted : Bool) :
    Store :=
  match firstData res with
  | none => fetchDbList_catch s deleted
  | some data =>
    let dbs := data.flatten
    let dbTree := schemaNodes s.nextRef dbs
    let dbCmplList := schemaEntries dbs
    let s1 := SET_DB_TREE { s with nextRef := s.nextRef + dbs.length } dbTree
    let s2 := CLEAR_DB_CMPL_LIST s1
    let s3 := UPDATE_DB_CMPL_LIST s2 dbCmplList
    SET_LOADING_DB_TREE s3 false

/-- Action `fetchDbList`; `res` answers the query, `deleted` the DELETE that a
failure triggers. -/
def fetchDbList (s : Store) (res : HttpResponse (List String)) (deleted : Bool) : Store :=
  let s1 := SET_LOADING_DB_TREE s true
  match fetchDbList_request s1 with
  | none => fetchDbList_catch s1 deleted
  | some _ => fetchDbList_response s1 res deleted

/-- The `catch` block of `openConnect`. -/
def openConnect_catch (s : Store) : Store :=
  logError (SET_SNACK_BAR_MESSAGE s ["Connection failed"] "error") "store-query-openConnect"

/-- Action `openConnect` with `body.target = target`; `res` answers the POST,
`dbList` and `deleted` the requests of the `fetchDbList` it dispatches. -/
def openConnect (s : Store) (target : String) (res : OpenResponse)
    (dbList : HttpResponse (List String)) (deleted : Bool) : Store :=
  match res with
  | OpenResponse.rejected => openConnect_catch s
  | OpenResponse.resolved status data =>
    if status = 201 then
      let s1 := SET_SNACK_BAR_MESSAGE s ["Connection successful"] "success"
      match data with
      | none => openConnect_catch s1
      | some connId =>
        let cnctResourceMap := objSet (spread s1.query_conn_id_map) target connId
        let s2 :=
          { s1 with
            storage_query_conn_id_map := some cnctResourceMap
            storage_curr_cnct_resource_name := some target }
        let s3 := SET_CURR_CNCT_RESOURCE_NAME s2 (some target)
        let s4 := SET_QUERY_CNN_ID_MAP s3 (some cnctResourceMap)
        fetchDbList s4 dbList deleted
    else s

/-- The array `dbChilren` built by the `forEach` of `fetchTables`. -/
def tableNodes (dbId : String) (fresh : Nat) : List String → List TblNode
  | [] => []
  | tbl :: rest =>
    { ref := fresh, type := "table", name := tbl, id := dbId ++ "." ++ tbl, children := [] }
      :: tableNodes dbId (fresh + 1) rest

/-- The array `dbCmplList` built by the `forEach` of `fetchTables`. -/
def tableEntries (tables : List String) : List CompletionEntry :=
  tables.map fun tbl => { label := tbl, detail := "TABLE", insertText := tbl, type := "table" }

/-- The request of `fetchTables`. -/
def fetchTables_request (s : Store) (db : DbNode) : Option Request :=
  queryRequest s ("SHOW TABLES FROM " ++ db.id ++ ";")

/-- The rest of `fetchTables` once the query has been answered. -/
def fetchTables_response (s : Store) (db : DbNode) (res : HttpResponse (List String)) :
    Store :=
  match firstData res with
  | none => logError s "store-query-fetchTables"
  | some data =>
    let tables := data.flatten
    let dbChilren := tableNodes db.id s.nextRef tables
    let dbCmplList := tableEntries tables
    let s1 := UPDATE_DB_CMPL_LIST { s with nextRef := s.nextRef + tables.length } dbCmplList
    match UPDATE_DB_CHILDREN s1 (dbIndexOf s1.db_tree db) dbChilren with
    | none => logError s1 "store-query-fetchTables"
    | some s2 => s2

/-- Action `fetchTables`. -/
def fetchTables (s : Store) (db : DbNode) (res : HttpResponse (List String)) : Store :=
  match fetchTables_request s db with
  | none => logError s "store-query-fetchTables"
  | some _ => fetchTables_response s db res

/-- The array `tblChildren` built by the `forEach` of `fetchCols`; a row is the
pair `[colName, colType]`. -/
def columnNodes (tblId : String) (cols : List (String × String)) : List ColNode :=
  cols.map fun row =>
    { name := row.1, dataType := row.2, type := "column", id := tblId ++ "." ++ row.1 }

/-- The array `dbCmplList` built by the `forEach` of `fetchCols`. -/
def columnEntries (cols : List (String × String)) : List CompletionEntry :=
  cols.map fun row =>
    { label := row.1, insertText := row.1, detail := "COLUMN", type := "column" }

/-- The SQL text of `fetchCols`. -/
def fetchCols_query (tbl : TblNode) : String :=
  "SELECT COLUMN_NAME, COLUMN_TYPE FROM information_schema.COLUMNS WHERE TABLE_NAME = \""
    ++ tbl.name ++ "\";"

/-- The request of `fetchCols`. -/
def fetchCols_request (s : Store) (tbl : TblNode) : Option Request :=
  queryRequest s (fetchCols_query tbl)

/-- The rest of `fetchCols` once the query has been answered. -/
def fetchCols_response (s : Store) (tbl : TblNode) (res : HttpResponse (String × String)) :
    Store :=
  match res with
  | HttpResponse.rejected => logError s "store-query-fetchCols"
  | HttpResponse.noData => s
  | _ =>
    match firstData res with
    | none => logError s "store-query-fetchCols"
    | some cols =>
      let dbId := splitFirst tbl.id
      let dbIndex := findIndex (fun db => db.id == dbId) s.db_tree
      let tblChildren := columnNodes tbl.id cols
      let dbCmplList := columnEntries cols
      let s1 := UPDATE_DB_CMPL_LIST s dbCmplList
      match dbIndex with
      | none => logError s1 "store-query-fetchCols"
      | some i =>
        match s1.db_tree[i]? with
        | none => logError s1 "store-query-fetchCols"
        | some db =>
          match UPDATE_DB_GRAND_CHILDREN s1 (some i) (tblIndexOf db.children tbl)
              tblChildren with
          | none => logError s1 "store-query-fetchCols"
          | some s2 => s2

/-- Action `fetchCols`. -/
def fetchCols (s : Store) (tbl : TblNode) (res : HttpResponse (String × String)) : Store :=
  match fetchCols_request s tbl with
  | none => logError s "store-query-fetchCols"
  | some _ => fetchCols_response s tbl res

/-- The rest of `fetchPreviewData` once the query has been answered. -/
def fetchPreviewData_response (s : Store) (res : HttpResponse (List String)) : Store :=
  match firstResult res with
  | none => logError s "store-query-fetchPreviewData"
  | some r => SET_LOADING_PREVIEW_DATA (SET_PREVIEW_DATA s r) false

/-- Action `fetchPreviewData`. -/
def fetchPreviewData (s : Store) (tblId : String) (res : HttpResponse (List String)) :
    Store :=
  let s1 := SET_LOADING_PREVIEW_DATA s true
  match queryRequest s1 ("SELECT * FROM " ++ tblId ++ ";") with
  | none => logError s1 "store-query-fetchPreviewData"
  | some _ => fetchPreviewData_response s1 res

/-- The rest of `fetchDataDetails` once the query has been answered. -/
def fetchDataDetails_response (s : Store) (res : HttpResponse (List String)) : Store :=
  match firstResult res with
  | none => logError s "store-query-fetchDataDetails"
  | some r => SET_LOADING_DATA_DETAILS (SET_DATA_DETAILS s r) false

/-- Action `fetchDataDetails`. -/
def fetchDataDetails (s : Store) (tblId : String) (res : HttpResponse (List String)) :
    Store :=
  let s1 := SET_LOADING_DATA_DETAILS s true
  match queryRequest s1 ("DESCRIBE " ++ tblId ++ ";") with
  | none => logError s1 "store-query-fetchDataDetails"
  | some _ => fetchDataDetails_response s1 res

/-- The rest of `fetchQueryResult` once the query has been answered. -/
def fetchQueryResult_response (s : Store) (res : HttpResponse (List String)) : Store :=
  match firstResult res with
  | none => logError s "store-query-fetchQueryResult"
  | some r => SET_LOADING_QUERY_RESULT (SET_QUERY_RESULT s r) false

/-- Action `fetchQueryResult`. -/
def fetchQueryResult (s : Store) (query : String) (res : HttpResponse (List String)) :
    Store :=
  let s1 := SET_LOADING_QUERY_RESULT s true
  match queryRequest s1 query with
  | none => logError s1 "store-query-fetchQueryResult"
  | some _ => fetchQueryResult_response s1 res

/-- Action `clearDataPreview`. -/
def clearDataPreview (s : Store) : Store :=
  SET_DATA_DETAILS (SET_PREVIEW_DATA s Payload.emptyObject) Payload.emptyObject

/-! ## Concrete stores used as examples -/

/-- A session reloaded with one connection: `server_0` is mapped to the id `"1"`. -/
def connectedStore : Store :=
  initialStore (some [("server_0", "1")]) (some "server_0") true

/-- The store `connectedStore` after a root load that lists the schema `test`
and a preview, a describe and a query that each returned one row. -/
def loadedStore : Store :=
  fetchQueryResult
    (fetchDataDetails
      (fetchPreviewData
        (fetchDbList connectedStore (HttpResponse.ok [{ data := some [["test"]] }]) true)
        "test.t1" (HttpResponse.ok [{ data := some [["1"]] }]))
      "test.t1" (HttpResponse.ok [{ data := some [["id"]] }]))
    "SELECT 1;" (HttpResponse.ok [{ data := some [["1"]] }])

/-- The target has a connection id in `query_conn_id_map`. -/
def mapContains (s : Store) (target : String) : Bool :=
  match s.query_conn_id_map with
  | none => false
  | some m => (objGet m target).isSome

/-- The store `connectedStore` after a root load that lists `db1` and `db2`. -/
def twoSchemaStore : Store :=
  fetchDbList connectedStore (HttpResponse.ok [{ data := some [["db1"], ["db2"]] }]) true

/-- The schema node of `db1` in `twoSchemaStore`. -/
def nodeDb1 : DbNode :=
  { ref := 0, type := "schema", name := "db1", id := "db1", children := [] }

/-- The schema node of `db2` in `twoSchemaStore`. -/
def nodeDb2 : DbNode :=
  { ref := 1, type := "schema", name := "db2", id := "db2", children := [] }

/-- An answer to `SHOW TABLES FROM db1;`. -/
def tablesOfDb1 : HttpResponse (List String) :=
  HttpResponse.ok [{ data := some [["t1"], ["t2"]] }]

/-- An answer to `SHOW TABLES FROM db2;`. -/
def tablesOfDb2 : HttpResponse (List String) :=
  HttpResponse.ok [{ data := some [["u1"]] }]

/-- A table node `t` under the schema `db1`. -/
def nodeDb1T : TblNode :=
  { ref := 2, type := "table", name := "t", id := "db1.t", children := [] }

/-- A table node `t` under the schema `db2`. -/
def nodeDb2T : TblNode :=
  { ref := 3, type := "table", name := "t", id := "db2.t", children := [] }

/-- The store `twoSchemaStore` after `db1` was expanded with the table `t`. -/
def expandedStore : Store :=
  fetchTables twoSchemaStore nodeDb1 (HttpResponse.ok [{ data := some [["t"]] }])

/-- An answer to the column listing of a table. -/
def columnsOfT : HttpResponse (String × String) :=
  HttpResponse.ok [{ data := some [("id", "int(11)"), ("name", "text")] }]

/-- The store `expandedStore` after a later root load that lists only the
schema `other`: the forest no longer holds the schema `db1`, while the table
node `nodeDb1T` handed out before is still around. -/
def reloadedStore : Store :=
  fetchDbList expandedStore (HttpResponse.ok [{ data := some [["other"]] }]) true

/-! ## Basic facts -/

theorem connIdText_isSome (s : Store) (h : s.query_conn_id_map ≠ none) :
    ∃ id, connIdText s = some id := by
  unfold connIdText
  cases hm : s.query_conn_id_map with
  | none => exact absurd hm h
  | some m => exact ⟨_, rfl⟩

theorem connIdText_none (s : Store) (h : s.query_conn_id_map = none) :
    connIdText s = none := by
  unfold connIdText
  rw [h]

theorem mapContains_ne_none (s : Store) (target : String) (h : mapContains s target = true) :
    s.query_conn_id_map ≠ none := by
  intro hm
  unfold mapContains at h
  rw [hm] at h
  exact Bool.noConfusion h

/-- The catch block of `fetchDbList` on a store whose map is not null. -/
theorem fetchDbList_catch_map (s : Store) (deleted : Bool) (h : s.query_conn_id_map ≠ none) :
    (fetchDbList_catch s deleted).query_conn_id_map
      = if deleted then none else s.query_conn_id_map := by
  obtain ⟨id, hid⟩ := connIdText_isSome (SET_SNACK_BAR_MESSAGE s ["Connection timed out"] "error") h
  unfold fetchDbList_catch disconnect_request
  simp only [hid]
  cases deleted <;> rfl

/-- A failed root load on a store whose map is not null. -/
theorem fetchDbList_failure_map (s : Store) (res : HttpResponse (List String)) (deleted : Bool)
    (h : s.query_conn_id_map ≠ none) (hres : firstData res = none) :
    (fetchDbList s res deleted).query_conn_id_map
      = if deleted then none else s.query_conn_id_map := by
  obtain ⟨id, hid⟩ := connIdText_isSome (SET_LOADING_DB_TREE s true) h
  unfold fetchDbList fetchDbList_request queryRequest fetchDbList_response
  simp only [hid, hres]
  exact fetchDbList_catch_map (SET_LOADING_DB_TREE s true) deleted h

/-! ## C1, C2: what `disconnect` clears -/

/-- C1 (as stated, refuted): on `connectedStore` the active target `server_0`
has the connection id `"1"`, the root load is rejected and so is the DELETE of
the disconnect it triggers; afterwards the mapping still maps `server_0` to `"1"`. -/
theorem C1_counterexample :
    mapContains connectedStore "server_0" = true
      ∧ connectedStore.curr_cnct_resource_name = some "server_0"
      ∧ firstData (HttpResponse.rejected : HttpResponse (List String)) = none
      ∧ (fetchDbList connectedStore HttpResponse.rejected false).query_conn_id_map
          = some [("server_0", "1")]
      ∧ mapContains (fetchDbList connectedStore HttpResponse.rejected false) "server_0"
          = true := by
  decide

/-- C1 (amended): when a target (in particular the active one) has a connection
id in the mapping and the root load fails, then after `fetchDbList` and the
`disconnect` it triggers: if the DELETE succeeds the mapping is `null` and no
longer contains the target; if the DELETE fails the mapping is what it was and
still contains the target. -/
theorem C1_root_failure_clears_mapping_only_when_delete_succeeds
    (s : Store) (target : String) (res : HttpResponse (List String))
    (hconn : mapContains s target = true)
    (hfail : firstData res = none) :
    ((fetchDbList s res true).query_conn_id_map = none
        ∧ mapContains (fetchDbList s res true) target = false)
      ∧ ((fetchDbList s res false).query_conn_id_map = s.query_conn_id_map
        ∧ mapContains (fetchDbList s res false) target = true) := by
  have hm := mapContains_ne_none s target hconn
  have h1 := fetchDbList_failure_map s res true hm hfail
  have h2 := fetchDbList_failure_map s res false hm hfail
  simp only [if_true] at h1
  simp only [Bool.false_eq_true, if_false] at h2
  refine ⟨⟨h1, ?_⟩, h2, ?_⟩
  · unfold mapContains
    rw [h1]
  · unfold mapContains
    rw [h2]
    exact hconn

/-- Witness of C1 (amended) on `connectedStore` with a rejected root load. -/
theorem C1_witness :
    ((fetchDbList connectedStore HttpResponse.rejected true).query_conn_id_map = none
        ∧ mapContains (fetchDbList connectedStore HttpResponse.rejected true) "server_0" = false)
      ∧ ((fetchDbList connectedStore HttpResponse.rejected false).query_conn_id_map
          = connectedStore.query_conn_id_map
        ∧ mapContains (fetchDbList connectedStore HttpResponse.rejected false) "server_0"
          = true) :=
  C1_root_failure_clears_mapping_only_when_delete_succeeds connectedStore "server_0"
    HttpResponse.rejected (by decide) (by decide)

/-- C2 (as stated, refuted): `disconnect` on `connectedStore` with a rejected
DELETE leaves the mapping in memory and in session storage as they were. -/
theorem C2_counterexample :
    (disconnect connectedStore false).query_conn_id_map = some [("server_0", "1")]
      ∧ (disconnect connectedStore false).storage_query_conn_id_map
          = some [("server_0", "1")] := by
  decide

/-- C2 (amended): on a store whose mapping is not `null`, `disconnect` clears
the mapping in memory and in session storage (and the cookie) when the DELETE
succeeds, and leaves the mapping in memory and in session storage unchanged
when the DELETE fails. -/
theorem C2_disconnect_clears_only_when_delete_succeeds (s : Store)
    (hm : s.query_conn_id_map ≠ none) :
    ((disconnect s true).query_conn_id_map = none
        ∧ (disconnect s true).storage_query_conn_id_map = none
        ∧ (disconnect s true).cookie_conn_id_body = false)
      ∧ ((disconnect s false).query_conn_id_map = s.query_conn_id_map
        ∧ (disconnect s false).storage_query_conn_id_map = s.storage_query_conn_id_map) := by
  obtain ⟨id, hid⟩ := connIdText_isSome s hm
  unfold disconnect disconnect_request
  simp only [hid]
  exact ⟨⟨rfl, rfl, rfl⟩, rfl, rfl⟩

/-- Witness of C2 (amended) on `connectedStore`. -/
theorem C2_witness :
    ((disconnect connectedStore true).query_conn_id_map = none
        ∧ (disconnect connectedStore true).storage_query_conn_id_map = none
        ∧ (disconnect connectedStore true).cookie_conn_id_body = false)
      ∧ ((disconnect connectedStore false).query_conn_id_map
          = connectedStore.query_conn_id_map
        ∧ (disconnect connectedStore false).storage_query_conn_id_map
          = connectedStore.storage_query_conn_id_map) :=
  C2_disconnect_clears_only_when_delete_succeeds connectedStore (by decide)

/-! ## C3: a failed preview, describe or query -/

/-- C3 (as stated, refuted): a rejected preview, describe or query on
`connectedStore`, whose loading flags are all `false`, leaves the loading flag
of its slot `true`. -/
theorem C3_counterexample :
    connectedStore.loading_preview_data = false
      ∧ (fetchPreviewData connectedStore "test.t1" HttpResponse.rejected).loading_preview_data
          = true
      ∧ (fetchDataDetails connectedStore "test.t1" HttpResponse.rejected).loading_data_details
          = true
      ∧ (fetchQueryResult connectedStore "SELECT 1;" HttpResponse.rejected).loading_query_result
          = true := by
  decide

/-- C3 (amended): for each of `fetchPreviewData`, `fetchDataDetails` and
`fetchQueryResult`, when the remote call fails (the answer has no first result
to read, or the mapping is `null` and the request cannot be built), the payload
of the slot is exactly what it was before the call and the loading flag of the
slot is left `true`, as set at dispatch. -/
theorem C3_failed_query_keeps_payload_and_leaves_loading_set
    (s : Store) (arg : String) (res : HttpResponse (List String))
    (hfail : firstResult res = none ∨ s.query_conn_id_map = none) :
    ((fetchPreviewData s arg res).loading_preview_data = true
        ∧ (fetchPreviewData s arg res).preview_data = s.preview_data)
      ∧ ((fetchDataDetails s arg res).loading_data_details = true
        ∧ (fetchDataDetails s arg res).data_details = s.data_details)
      ∧ ((fetchQueryResult s arg res).loading_query_result = true
        ∧ (fetchQueryResult s arg res).query_result = s.query_result) := by
  unfold fetchPreviewData fetchDataDetails fetchQueryResult queryRequest
    fetchPreviewData_response fetchDataDetails_response fetchQueryResult_response
  cases hm : s.query_conn_id_map with
  | none =>
    have h1 := connIdText_none (SET_LOADING_PREVIEW_DATA s true) hm
    have h2 := connIdText_none (SET_LOADING_DATA_DETAILS s true) hm
    have h3 := connIdText_none (SET_LOADING_QUERY_RESULT s true) hm
    simp only [h1, h2, h3]
    exact ⟨⟨rfl, rfl⟩, ⟨rfl, rfl⟩, rfl, rfl⟩
  | some m =>
    have hres : firstResult res = none := by
      rcases hfail with h | h
      · exact h
      · rw [hm] at h
        exact Option.noConfusion h
    have hne : s.query_conn_id_map ≠ none := by
      rw [hm]
      exact Option.some_ne_none m
    obtain ⟨i1, h1⟩ := connIdText_isSome (SET_LOADING_PREVIEW_DATA s true) hne
    obtain ⟨i2, h2⟩ := connIdText_isSome (SET_LOADING_DATA_DETAILS s true) hne
    obtain ⟨i3, h3⟩ := connIdText_isSome (SET_LOADING_QUERY_RESULT s true) hne
    simp only [h1, h2, h3, hres]
    exact ⟨⟨rfl, rfl⟩, ⟨rfl, rfl⟩, rfl, rfl⟩

/-- Witness of C3 (amended): rejected calls on `loadedStore`, whose three slots
hold a result. -/
theorem C3_witness :
    ((fetchPreviewData loadedStore "test.t1" HttpResponse.rejected).loading_preview_data = true
        ∧ (fetchPreviewData loadedStore "test.t1" HttpResponse.rejected).preview_data
          = loadedStore.preview_data)
      ∧ ((fetchDataDetails loadedStore "test.t1" HttpResponse.rejected).loading_data_details
          = true
        ∧ (fetchDataDetails loadedStore "test.t1" HttpResponse.rejected).data_details
          = loadedStore.data_details)
      ∧ ((fetchQueryResult loadedStore "test.t1" HttpResponse.rejected).loading_query_result
          = true
        ∧ (fetchQueryResult loadedStore "test.t1" HttpResponse.rejected).query_result
          = loadedStore.query_result) :=
  C3_failed_query_keeps_payload_and_leaves_loading_set loadedStore "test.t1"
    HttpResponse.rejected (Or.inl (by decide))

/-! ## C8: what `disconnect` leaves in place -/

/-- C8 (as stated, refuted): after a `disconnect` of `loadedStore` whose DELETE
succeeds, the schema forest, the completion list and the three payloads are
still there. -/
theorem C8_counterexample :
    (disconnect loadedStore true).query_conn_id_map = none
      ∧ (disconnect loadedStore true).db_tree
          = [{ ref := 0, type := "schema", name := "test", id := "test", children := [] }]
      ∧ (disconnect loadedStore true).db_completion_list
          = [{ label := "test", detail := "SCHEMA", insertText := "test", type := "schema" }]
      ∧ (disconnect loadedStore true).preview_data
          = Payload.resultSet { data := some [["1"]] }
      ∧ (disconnect loadedStore true).data_details
          = Payload.resultSet { data := some [["id"]] }
      ∧ (disconnect loadedStore true).query_result
          = Payload.resultSet { data := some [["1"]] } := by
  decide

/-- C8 (amended): `disconnect`, whatever the remote endpoint answers, leaves the
schema forest, the completion list and the preview, describe and query payloads
exactly as they were; it discards none of them. -/
theorem C8_disconnect_keeps_tree_and_results (s : Store) (deleted : Bool) :
    (disconnect s deleted).db_tree = s.db_tree
      ∧ (disconnect s deleted).db_completion_list = s.db_completion_list
      ∧ (disconnect s deleted).preview_data = s.preview_data
      ∧ (disconnect s deleted).data_details = s.data_details
      ∧ (disconnect s deleted).query_result = s.query_result := by
  unfold disconnect disconnect_response
  cases disconnect_request s <;> cases deleted <;> exact ⟨rfl, rfl, rfl, rfl, rfl⟩

/-! ## Lookup by identity and the merge into one node -/

theorem findIndex_some {α : Type} (p : α → Bool) :
    ∀ (l : List α) (k : Nat), findIndex p l = some k → ∃ x, l[k]? = some x ∧ p x = true := by
  intro l
  induction l with
  | nil =>
    intro k h
    exact Option.noConfusion h
  | cons a l ih =>
    intro k h
    unfold findIndex at h
    by_cases hp : p a = true
    · rw [if_pos hp] at h
      have hk : k = 0 := (Option.some.inj h).symm
      subst hk
      exact ⟨a, by simp, hp⟩
    · rw [if_neg hp] at h
      cases hf : findIndex p l with
      | none =>
        rw [hf] at h
        exact Option.noConfusion h
      | some m =>
        rw [hf] at h
        have hk : k = m + 1 := (Option.some.inj h).symm
        subst hk
        obtain ⟨x, hx, hpx⟩ := ih m hf
        exact ⟨x, by simpa using hx, hpx⟩

theorem dbIndexOf_ref (t : List DbNode) (db : DbNode) (k : Nat)
    (h : dbIndexOf t db = some k) : ∃ n, t[k]? = some n ∧ n.ref = db.ref := by
  obtain ⟨n, hn, hp⟩ := findIndex_some _ t k h
  exact ⟨n, hn, by simpa using hp⟩

/-- The object `db` is not found at a position that holds another object. -/
theorem dbIndexOf_ne (t : List DbNode) (db other : DbNode) (j : Nat)
    (hj : t[j]? = some other) (hne : db.ref ≠ other.ref) : dbIndexOf t db ≠ some j := by
  intro h
  obtain ⟨n, hn, hr⟩ := dbIndexOf_ref t db j h
  rw [hj] at hn
  have : other = n := Option.some.inj hn
  subst this
  exact hne hr.symm

theorem immutableUpdateChildren_at (t : List DbNode) (i : Nat) (db : DbNode)
    (children : List TblNode) (fresh : Nat) (h : t[i]? = some db) :
    immutableUpdateChildren t (some i) children fresh
      = some (t.set i { db with ref := fresh, children := children }) := by
  unfold immutableUpdateChildren
  simp only [h]

/-- The mutation `UPDATE_DB_CHILDREN` at a position that holds a node. -/
theorem UPDATE_DB_CHILDREN_at (s : Store) (i : Nat) (db : DbNode) (children : List TblNode)
    (h : s.db_tree[i]? = some db) :
    UPDATE_DB_CHILDREN s (some i) children
      = some { s with
          db_tree := s.db_tree.set i { db with ref := s.nextRef, children := children }
          nextRef := s.nextRef + 1 } := by
  unfold UPDATE_DB_CHILDREN
  rw [immutableUpdateChildren_at s.db_tree i db children s.nextRef h]

/-- The mutation `UPDATE_DB_CHILDREN` changes no node at another position. -/
theorem UPDATE_DB_CHILDREN_frame (s s2 : Store) (dbIndex : Option Nat)
    (children : List TblNode) (j : Nat) (h : UPDATE_DB_CHILDREN s dbIndex children = some s2)
    (hj : dbIndex ≠ some j) : s2.db_tree[j]? = s.db_tree[j]? := by
  cases dbIndex with
  | none =>
    unfold UPDATE_DB_CHILDREN immutableUpdateChildren at h
    exact Option.noConfusion h
  | some i =>
    cases hi : s.db_tree[i]? with
    | none =>
      unfold UPDATE_DB_CHILDREN immutableUpdateChildren at h
      simp only [hi] at h
      exact Option.noConfusion h
    | some db =>
      rw [UPDATE_DB_CHILDREN_at s i db children hi] at h
      have h2 := Option.some.inj h
      subst h2
      have hij : i ≠ j := fun e => hj (by rw [e])
      exact List.getElem?_set_ne hij

/-- The answer to `fetchTables` changes no node at a position other than the one
where `db` is found. -/
theorem fetchTables_response_frame (s : Store) (db : DbNode)
    (res : HttpResponse (List String)) (j : Nat) (hj : dbIndexOf s.db_tree db ≠ some j) :
    (fetchTables_response s db res).db_tree[j]? = s.db_tree[j]? := by
  unfold fetchTables_response
  cases firstData res with
  | none => rfl
  | some data =>
    simp only []
    split
    · rfl
    · rename_i s2 hu
      have hf := UPDATE_DB_CHILDREN_frame _ s2 _ _ j hu hj
      exact hf

/-- After the answer to `fetchTables`, a position holds what it held or an object
allocated by the action. -/
theorem fetchTables_response_node (s : Store) (db : DbNode)
    (res : HttpResponse (List String)) (j : Nat) :
    (fetchTables_response s db res).db_tree[j]? = s.db_tree[j]?
      ∨ ∃ n, (fetchTables_response s db res).db_tree[j]? = some n ∧ s.nextRef ≤ n.ref := by
  by_cases hj : dbIndexOf s.db_tree db = some j
  · unfold fetchTables_response
    cases firstData res with
    | none => exact Or.inl rfl
    | some data =>
      obtain ⟨n, hn, _⟩ := dbIndexOf_ref s.db_tree db j hj
      have hu := UPDATE_DB_CHILDREN_at
        (UPDATE_DB_CMPL_LIST { s with nextRef := s.nextRef + data.flatten.length }
          (tableEntries data.flatten)) j n (tableNodes db.id s.nextRef data.flatten) hn
      have hj2 : dbIndexOf
          (UPDATE_DB_CMPL_LIST { s with nextRef := s.nextRef + data.flatten.length }
            (tableEntries data.flatten)).db_tree db = some j := hj
      simp only [hj2, hu]
      refine Or.inr ⟨_, List.getElem?_set_self ?_, ?_⟩
      · exact (List.getElem?_eq_some.mp hn).1
      · exact Nat.le_add_right _ _
  · exact Or.inl (fetchTables_response_frame s db res j hj)

/-! ## C4: locality of the merge -/

/-- C4: the mutation `UPDATE_DB_CHILDREN` at a position `i` that holds a node
does not throw, keeps the length of the forest, keeps every node at another
position (children included) and keeps `type`, `name` and `id` of node `i`,
whose children become the given ones. Hence, for a schema node `db2` of the
forest and another object `db1`, the answer to `fetchTables` for `db1` leaves
the node `db2` as it is, and also when the answer for `db2` arrived first it
leaves what that answer put at the position of `db2`. -/
theorem C4_merge_locality :
    (∀ (s : Store) (i : Nat) (db : DbNode) (children : List TblNode),
      s.db_tree[i]? = some db →
        ∃ s2, UPDATE_DB_CHILDREN s (some i) children = some s2
          ∧ s2.db_tree.length = s.db_tree.length
          ∧ (∀ j, j ≠ i → s2.db_tree[j]? = s.db_tree[j]?)
          ∧ ∃ n, s2.db_tree[i]? = some n ∧ n.type = db.type ∧ n.name = db.name
              ∧ n.id = db.id ∧ n.children = children)
      ∧ (∀ (s : Store) (db1 db2 : DbNode) (j : Nat) (r1 r2 : HttpResponse (List String)),
        s.db_tree[j]? = some db2 → db1 ∈ s.db_tree → db1.ref ≠ db2.ref →
        (∀ n ∈ s.db_tree, n.ref < s.nextRef) →
          (fetchTables_response s db1 r1).db_tree[j]? = some db2
            ∧ (fetchTables s db1 r1).db_tree[j]? = some db2
            ∧ (fetchTables_response (fetchTables_response s db2 r2) db1 r1).db_tree[j]?
                = (fetchTables_response s db2 r2).db_tree[j]?) := by
  constructor
  · intro s i db children hi
    have hlt : i < s.db_tree.length := (List.getElem?_eq_some.mp hi).1
    refine ⟨_, UPDATE_DB_CHILDREN_at s i db children hi, ?_, ?_, ?_⟩
    · exact List.length_set _ _ _
    · intro j hj
      exact List.getElem?_set_ne (Ne.symm hj)
    · exact ⟨_, List.getElem?_set_self hlt, rfl, rfl, rfl, rfl⟩
  · intro s db1 db2 j r1 r2 hj hmem hne hheap
    have h1 : (fetchTables_response s db1 r1).db_tree[j]? = some db2 := by
      rw [fetchTables_response_frame s db1 r1 j (dbIndexOf_ne s.db_tree db1 db2 j hj hne)]
      exact hj
    refine ⟨h1, ?_, ?_⟩
    · unfold fetchTables
      cases fetchTables_request s db1 with
      | none => exact hj
      | some _ => exact h1
    · apply fetchTables_response_frame
      intro hfound
      obtain ⟨n, hn, hr⟩ := dbIndexOf_ref _ db1 j hfound
      rcases fetchTables_response_node s db2 r2 j with hsame | ⟨m, hm, hfresh⟩
      · rw [hsame, hj] at hn
        have : db2 = n := Option.some.inj hn
        subst this
        exact hne hr.symm
      · rw [hm] at hn
        have : m = n := Option.some.inj hn
        subst this
        have hlt := hheap db1 hmem
        omega

/-- Witness of C4 on `twoSchemaStore`: merging into position `0`, and the
answers for `db1` and `db2` in both orders. -/
theorem C4_witness :
    (∃ s2, UPDATE_DB_CHILDREN twoSchemaStore (some 0) [] = some s2
        ∧ s2.db_tree.length = twoSchemaStore.db_tree.length
        ∧ (∀ j, j ≠ 0 → s2.db_tree[j]? = twoSchemaStore.db_tree[j]?)
        ∧ ∃ n, s2.db_tree[0]? = some n ∧ n.type = nodeDb1.type ∧ n.name = nodeDb1.name
            ∧ n.id = nodeDb1.id ∧ n.children = [])
      ∧ ((fetchTables_response twoSchemaStore nodeDb1 tablesOfDb1).db_tree[1]? = some nodeDb2
        ∧ (fetchTables twoSchemaStore nodeDb1 tablesOfDb1).db_tree[1]? = some nodeDb2
        ∧ (fetchTables_response (fetchTables_response twoSchemaStore nodeDb2 tablesOfDb2)
              nodeDb1 tablesOfDb1).db_tree[1]?
            = (fetchTables_response twoSchemaStore nodeDb2 tablesOfDb2).db_tree[1]?) :=
  ⟨C4_merge_locality.1 twoSchemaStore 0 nodeDb1 [] (by decide),
    C4_merge_locality.2 twoSchemaStore nodeDb1 nodeDb2 1 tablesOfDb1 tablesOfDb2
      (by decide) (by decide) (by decide) (by decide)⟩

/-! ## C5, C6: the completion list -/

/-- A successful root load, field by field. -/
theorem fetchDbList_success (s : Store) (res : HttpResponse (List String)) (deleted : Bool)
    (data : List (List String)) (hm : s.query_conn_id_map ≠ none)
    (hres : firstData res = some data) :
    (fetchDbList s res deleted).db_completion_list = schemaEntries data.flatten
      ∧ (fetchDbList s res deleted).db_tree = schemaNodes s.nextRef data.flatten
      ∧ (fetchDbList s res deleted).query_conn_id_map = s.query_conn_id_map
      ∧ (fetchDbList s res deleted).curr_cnct_resource_name = s.curr_cnct_resource_name := by
  obtain ⟨id, hid⟩ := connIdText_isSome (SET_LOADING_DB_TREE s true) hm
  unfold fetchDbList fetchDbList_request queryRequest fetchDbList_response
  simp only [hid, hres]
  exact ⟨List.nil_append _, rfl, rfl, rfl⟩

theorem UPDATE_DB_CHILDREN_fields (s s2 : Store) (dbIndex : Option Nat)
    (children : List TblNode) (h : UPDATE_DB_CHILDREN s dbIndex children = some s2) :
    s2.db_completion_list = s.db_completion_list
      ∧ s2.query_conn_id_map = s.query_conn_id_map
      ∧ s2.curr_cnct_resource_name = s.curr_cnct_resource_name := by
  unfold UPDATE_DB_CHILDREN at h
  split at h
  · exact Option.noConfusion h
  · have h2 := Option.some.inj h
    subst h2
    exact ⟨rfl, rfl, rfl⟩

/-- A `fetchTables` whose query is answered with a table listing, field by field. -/
theorem fetchTables_success (s : Store) (db : DbNode) (res : HttpResponse (List String))
    (data : List (List String)) (hm : s.query_conn_id_map ≠ none)
    (hres : firstData res = some data) :
    (fetchTables s db res).db_completion_list
        = s.db_completion_list ++ tableEntries data.flatten
      ∧ (fetchTables s db res).query_conn_id_map = s.query_conn_id_map
      ∧ (fetchTables s db res).curr_cnct_resource_name = s.curr_cnct_resource_name := by
  obtain ⟨id, hid⟩ := connIdText_isSome s hm
  unfold fetchTables fetchTables_request queryRequest fetchTables_response
  simp only [hid, hres]
  split
  · exact ⟨rfl, rfl, rfl⟩
  · rename_i s2 hu
    exact UPDATE_DB_CHILDREN_fields _ s2 _ _ hu

/-- C5: whatever the completion list held before, a root load that succeeds
with the database names `data.flatten` leaves the completion list equal to the
SCHEMA entries of those names, in that order; after two successful root loads
in a row it holds exactly the entries of the second. -/
theorem C5_completion_rebuilt_on_root_load (s : Store)
    (r1 r2 : HttpResponse (List String)) (d1 d2 : Bool) (data1 data2 : List (List String))
    (hm : s.query_conn_id_map ≠ none)
    (h1 : firstData r1 = some data1) (h2 : firstData r2 = some data2) :
    (fetchDbList s r1 d1).db_completion_list
        = data1.flatten.map
            (fun n => { label := n, detail := "SCHEMA", insertText := n, type := "schema" })
      ∧ (fetchDbList (fetchDbList s r1 d1) r2 d2).db_completion_list
        = data2.flatten.map
            (fun n => { label := n, detail := "SCHEMA", insertText := n, type := "schema" }) := by
  have hfirst := fetchDbList_success s r1 d1 data1 hm h1
  have hm2 : (fetchDbList s r1 d1).query_conn_id_map ≠ none := by
    rw [hfirst.2.2.1]
    exact hm
  exact ⟨hfirst.1, (fetchDbList_success (fetchDbList s r1 d1) r2 d2 data2 hm2 h2).1⟩

/-- Witness of C5: `loadedStore`, whose completion list holds `test`, reloaded
with `db1, db2` and then with `db3`. -/
theorem C5_witness :
    (fetchDbList loadedStore (HttpResponse.ok [{ data := some [["db1"], ["db2"]] }])
        true).db_completion_list
        = [["db1"], ["db2"]].flatten.map
            (fun n => { label := n, detail := "SCHEMA", insertText := n, type := "schema" })
      ∧ (fetchDbList
          (fetchDbList loadedStore (HttpResponse.ok [{ data := some [["db1"], ["db2"]] }]) true)
          (HttpResponse.ok [{ data := some [["db3"]] }]) true).db_completion_list
        = [["db3"]].flatten.map
            (fun n => { label := n, detail := "SCHEMA", insertText := n, type := "schema" }) :=
  C5_completion_rebuilt_on_root_load loadedStore _ _ true true _ _ (by decide) rfl rfl

/-- C6: a `fetchTables` for `db1` answered with the tables `data1.flatten`
followed by a `fetchTables` for `db2` answered with the tables `data2.flatten`
leaves the completion list equal to what it was, followed by the TABLE entries
of the first answer in result order, followed by those of the second. -/
theorem C6_completion_appended_on_expand (s : Store) (db1 db2 : DbNode)
    (r1 r2 : HttpResponse (List String)) (data1 data2 : List (List String))
    (hm : s.query_conn_id_map ≠ none)
    (h1 : firstData r1 = some data1) (h2 : firstData r2 = some data2) :
    (fetchTables (fetchTables s db1 r1) db2 r2).db_completion_list
      = s.db_completion_list
        ++ data1.flatten.map
            (fun t => { label := t, detail := "TABLE", insertText := t, type := "table" })
        ++ data2.flatten.map
            (fun t => { label := t, detail := "TABLE", insertText := t, type := "table" }) := by
  have hfirst := fetchTables_success s db1 r1 data1 hm h1
  have hm2 : (fetchTables s db1 r1).query_conn_id_map ≠ none := by
    rw [hfirst.2.1]
    exact hm
  have hsecond := fetchTables_success (fetchTables s db1 r1) db2 r2 data2 hm2 h2
  rw [hsecond.1, hfirst.1]
  rfl

/-- Witness of C6: `db1` then `db2` expanded in `twoSchemaStore`. -/
theorem C6_witness :
    (fetchTables (fetchTables twoSchemaStore nodeDb1 tablesOfDb1) nodeDb2
        tablesOfDb2).db_completion_list
      = twoSchemaStore.db_completion_list
        ++ [["t1"], ["t2"]].flatten.map
            (fun t => { label := t, detail := "TABLE", insertText := t, type := "table" })
        ++ [["u1"]].flatten.map
            (fun t => { label := t, detail := "TABLE", insertText := t, type := "table" }) :=
  C6_completion_appended_on_expand twoSchemaStore nodeDb1 nodeDb2 tablesOfDb1 tablesOfDb2
    _ _ (by decide) rfl rfl

/-! ## C7: the connection of the active target -/

theorem objGet_objSet_self (m : ConnMap) (k v : String) : objGet (objSet m k v) k = some v := by
  induction m with
  | nil => simp [objSet, objGet]
  | cons p m ih =>
    obtain ⟨a, b⟩ := p
    unfold objSet
    by_cases h : a = k
    · simp [h, objGet]
    · simp [h, objGet, ih]

theorem objGet_objSet_ne (m : ConnMap) (k v key : String) (hne : k ≠ key) :
    objGet (objSet m k v) key = objGet m key := by
  induction m with
  | nil => simp [objSet, objGet, hne]
  | cons p m ih =>
    obtain ⟨a, b⟩ := p
    unfold objSet
    by_cases h : a = k
    · subst h
      simp [objGet, hne]
    · simp [h, objGet, ih]

/-- An `openConnect` that is answered 201 with an id and whose root load
succeeds, field by field. -/
theorem openConnect_success (s : Store) (target connId : String)
    (dbList : HttpResponse (List String)) (deleted : Bool) (data : List (List String))
    (hres : firstData dbList = some data) :
    (openConnect s target (OpenResponse.resolved 201 (some connId)) dbList
        deleted).query_conn_id_map = some (objSet (spread s.query_conn_id_map) target connId)
      ∧ (openConnect s target (OpenResponse.resolved 201 (some connId)) dbList
        deleted).curr_cnct_resource_name = some target := by
  unfold openConnect
  simp only [if_true]
  have h := fetchDbList_success
    (SET_QUERY_CNN_ID_MAP
      (SET_CURR_CNCT_RESOURCE_NAME
        { SET_SNACK_BAR_MESSAGE s ["Connection successful"] "success" with
          storage_query_conn_id_map := some (objSet (spread s.query_conn_id_map) target connId)
          storage_curr_cnct_resource_name := some target }
        (some target))
      (some (objSet (spread s.query_conn_id_map) target connId)))
    dbList deleted data (Option.some_ne_none _) hres
  exact ⟨h.2.2.1, h.2.2.2⟩

/-- C7: for distinct targets `A` and `B` and every starting store, after an
`openConnect` of `A` answered 201 with `idA` and then an `openConnect` of `B`
answered 201 with `idB`, both root loads succeeding and no `disconnect` in
between, the mapping maps `A` to `idA` and `B` to `idB`, the active target is
`B`, and the requests of the next tree and query operations go to
`/sql/idB/queries`. -/
theorem C7_active_connection_after_two_opens (s : Store) (A B idA idB : String)
    (rA rB : HttpResponse (List String)) (dataA dataB : List (List String)) (dA dB : Bool)
    (hAB : A ≠ B) (hA : firstData rA = some dataA) (hB : firstData rB = some dataB) :
    (∃ m, (openConnect (openConnect s A (OpenResponse.resolved 201 (some idA)) rA dA) B
            (OpenResponse.resolved 201 (some idB)) rB dB).query_conn_id_map = some m
          ∧ objGet m A = some idA ∧ objGet m B = some idB)
      ∧ (openConnect (openConnect s A (OpenResponse.resolved 201 (some idA)) rA dA) B
          (OpenResponse.resolved 201 (some idB)) rB dB).curr_cnct_resource_name = some B
      ∧ (∀ sql, queryRequest
          (openConnect (openConnect s A (OpenResponse.resolved 201 (some idA)) rA dA) B
            (OpenResponse.resolved 201 (some idB)) rB dB) sql
          = some { method := "POST", url := "/sql/" ++ idB ++ "/queries", sql := some sql })
      ∧ (∀ db, (fetchTables_request
          (openConnect (openConnect s A (OpenResponse.resolved 201 (some idA)) rA dA) B
            (OpenResponse.resolved 201 (some idB)) rB dB) db).map (fun r => r.url)
          = some ("/sql/" ++ idB ++ "/queries"))
      ∧ (∀ tbl, (fetchCols_request
          (openConnect (openConnect s A (OpenResponse.resolved 201 (some idA)) rA dA) B
            (OpenResponse.resolved 201 (some idB)) rB dB) tbl).map (fun r => r.url)
          = some ("/sql/" ++ idB ++ "/queries")) := by
  have h1 := openConnect_success s A idA rA dA dataA hA
  have h2 := openConnect_success
    (openConnect s A (OpenResponse.resolved 201 (some idA)) rA dA) B idB rB dB dataB hB
  rw [h1.1] at h2
  have hgetA : objGet (objSet (objSet (spread s.query_conn_id_map) A idA) B idB) A = some idA := by
    rw [objGet_objSet_ne _ B idB A (Ne.symm hAB)]
    exact objGet_objSet_self _ A idA
  have hgetB : objGet (objSet (objSet (spread s.query_conn_id_map) A idA) B idB) B = some idB :=
    objGet_objSet_self _ B idB
  have hid : connIdText
      (openConnect (openConnect s A (OpenResponse.resolved 201 (some idA)) rA dA) B
        (OpenResponse.resolved 201 (some idB)) rB dB) = some idB := by
    unfold connIdText
    rw [h2.1, h2.2]
    show some (jsString (objGet (objSet (objSet (spread s.query_conn_id_map) A idA) B idB) B))
      = some idB
    rw [hgetB]
    rfl
  have hreq : ∀ sql, queryRequest
      (openConnect (openConnect s A (OpenResponse.resolved 201 (some idA)) rA dA) B
        (OpenResponse.resolved 201 (some idB)) rB dB) sql
      = some { method := "POST", url := "/sql/" ++ idB ++ "/queries", sql := some sql } := by
    intro sql
    unfold queryRequest
    rw [hid]
  refine ⟨⟨_, h2.1, hgetA, hgetB⟩, h2.2, hreq, ?_, ?_⟩
  · intro db
    unfold fetchTables_request
    rw [hreq]
    rfl
  · intro tbl
    unfold fetchCols_request
    rw [hreq]
    rfl

/-- Witness of C7: `server_0` then `server_1` opened from the initial store of a
fresh session, whose mapping is `null`. -/
theorem C7_witness :
    (∃ m, (openConnect
            (openConnect (initialStore none none false) "server_0"
              (OpenResponse.resolved 201 (some "7")) tablesOfDb1 true)
            "server_1" (OpenResponse.resolved 201 (some "8")) tablesOfDb2
            true).query_conn_id_map = some m
          ∧ objGet m "server_0" = some "7" ∧ objGet m "server_1" = some "8")
      ∧ (openConnect
          (openConnect (initialStore none none false) "server_0"
            (OpenResponse.resolved 201 (some "7")) tablesOfDb1 true)
          "server_1" (OpenResponse.resolved 201 (some "8")) tablesOfDb2
          true).curr_cnct_resource_name = some "server_1" :=
  have h := C7_active_connection_after_two_opens (initialStore none none false)
    "server_0" "server_1" "7" "8" tablesOfDb1 tablesOfDb2 _ _ true true (by decide) rfl rfl
  ⟨h.1, h.2.1⟩

/-! ## C9: the nodes built by an expansion -/

theorem tableNodes_map (dbId : String) (tables : List String) :
    ∀ fresh : Nat,
      (tableNodes dbId fresh tables).map (fun c => (c.type, c.name, c.id, c.children))
        = tables.map (fun t => ("table", t, dbId ++ "." ++ t, ([] : List ColNode))) := by
  induction tables with
  | nil =>
    intro fresh
    rfl
  | cons t rest ih =>
    intro fresh
    unfold tableNodes
    simp only [List.map_cons, ih (fresh + 1)]

/-- The mutation `UPDATE_DB_GRAND_CHILDREN` at positions that hold nodes. -/
theorem UPDATE_DB_GRAND_CHILDREN_at (s : Store) (i j : Nat) (db : DbNode) (tbl : TblNode)
    (children : List ColNode) (hi : s.db_tree[i]? = some db) (hj : db.children[j]? = some tbl) :
    UPDATE_DB_GRAND_CHILDREN s (some i) (some j) children
      = some { s with
          db_tree := s.db_tree.set i
            { db with
              ref := s.nextRef
              children := db.children.set j
                { tbl with ref := s.nextRef + 1, children := children } }
          nextRef := s.nextRef + 2 } := by
  unfold UPDATE_DB_GRAND_CHILDREN immutableUpdateGrandChildren
  simp only [hi, hj]

/-- C9: when the schema node `db` is found at position `i` of the forest and
the table listing succeeds with `data.flatten`, after `fetchTables` the children
of node `i` are one table node per listed name, in result order, each with
`type` table, `name` the listed name, `id` equal to `db.id`, a dot and the name,
and no children. When the table node `tbl` is found at position `j` of the
schema node at position `i` (the first whose id is `tbl.id.split('.')[0]`) and
the column listing succeeds with `cols`, after `fetchCols` the children of that
table node are one column node per row, in result order, with `id` equal to
`tbl.id`, a dot and the column name. -/
theorem C9_nodes_built_in_result_order :
    (∀ (s : Store) (db : DbNode) (i : Nat) (res : HttpResponse (List String))
        (data : List (List String)),
      s.query_conn_id_map ≠ none → s.db_tree[i]? = some db →
      dbIndexOf s.db_tree db = some i → firstData res = some data →
        ∃ n, (fetchTables s db res).db_tree[i]? = some n
          ∧ n.children.map (fun c => (c.type, c.name, c.id, c.children))
              = data.flatten.map
                  (fun t => ("table", t, db.id ++ "." ++ t, ([] : List ColNode))))
      ∧ (∀ (s : Store) (tbl : TblNode) (db : DbNode) (i j : Nat)
          (res : HttpResponse (String × String)) (cols : List (String × String)),
        s.query_conn_id_map ≠ none →
        findIndex (fun d => d.id == splitFirst tbl.id) s.db_tree = some i →
        s.db_tree[i]? = some db → tblIndexOf db.children tbl = some j →
        firstData res = some cols →
          ∃ d t, (fetchCols s tbl res).db_tree[i]? = some d ∧ d.children[j]? = some t
            ∧ t.children = cols.map
                (fun row =>
                  { name := row.1, dataType := row.2, type := "column"
                    id := tbl.id ++ "." ++ row.1 })) := by
  constructor
  · intro s db i res data hm hi hidx hres
    obtain ⟨id, hid⟩ := connIdText_isSome s hm
    have hu := UPDATE_DB_CHILDREN_at
      (UPDATE_DB_CMPL_LIST { s with nextRef := s.nextRef + data.flatten.length }
        (tableEntries data.flatten)) i db (tableNodes db.id s.nextRef data.flatten) hi
    have hidx2 : dbIndexOf
        (UPDATE_DB_CMPL_LIST { s with nextRef := s.nextRef + data.flatten.length }
          (tableEntries data.flatten)).db_tree db = some i := hidx
    unfold fetchTables fetchTables_request queryRequest fetchTables_response
    simp only [hid, hres, hidx2, hu]
    refine ⟨_, List.getElem?_set_self (List.getElem?_eq_some.mp hi).1, ?_⟩
    exact tableNodes_map db.id data.flatten s.nextRef
  · intro s tbl db i j res cols hm hfind hi hj hres
    obtain ⟨id, hid⟩ := connIdText_isSome s hm
    obtain ⟨t0, ht0, _⟩ := findIndex_some _ db.children j hj
    have hu := UPDATE_DB_GRAND_CHILDREN_at (UPDATE_DB_CMPL_LIST s (columnEntries cols)) i j db t0
      (columnNodes tbl.id cols) hi ht0
    have hi2 : (UPDATE_DB_CMPL_LIST s (columnEntries cols)).db_tree[i]? = some db := hi
    have hlt : i < s.db_tree.length := (List.getElem?_eq_some.mp hi).1
    have hlt2 : j < db.children.length := (List.getElem?_eq_some.mp ht0).1
    unfold fetchCols fetchCols_request queryRequest
    simp only [hid]
    cases res with
    | rejected => exact Option.noConfusion hres
    | noData => exact Option.noConfusion hres
    | malformed => exact Option.noConfusion hres
    | ok results =>
      unfold fetchCols_response
      simp only [hres, hfind, hi2, hj, hu]
      exact ⟨_, _, List.getElem?_set_self hlt, List.getElem?_set_self hlt2, rfl⟩

/-- Witness of C9: `fetchTables` for `db1` in `twoSchemaStore` and `fetchCols`
for its table `t` in `expandedStore`. -/
theorem C9_witness :
    (∃ n, (fetchTables twoSchemaStore nodeDb1 tablesOfDb1).db_tree[0]? = some n
        ∧ n.children.map (fun c => (c.type, c.name, c.id, c.children))
            = [["t1"], ["t2"]].flatten.map
                (fun t => ("table", t, nodeDb1.id ++ "." ++ t, ([] : List ColNode))))
      ∧ (∃ d t, (fetchCols expandedStore nodeDb1T columnsOfT).db_tree[0]? = some d
        ∧ d.children[0]? = some t
        ∧ t.children = [("id", "int(11)"), ("name", "text")].map
            (fun row =>
              { name := row.1, dataType := row.2, type := "column"
                id := nodeDb1T.id ++ "." ++ row.1 })) :=
  ⟨C9_nodes_built_in_result_order.1 twoSchemaStore nodeDb1 0 tablesOfDb1 _
      (by decide) (by decide) (by decide) rfl,
    C9_nodes_built_in_result_order.2 expandedStore nodeDb1T
      { ref := 3, type := "schema", name := "db1", id := "db1", children := [nodeDb1T] }
      0 0 columnsOfT _ (by decide) (by decide) (by decide) (by decide) rfl⟩

/-! ## C10: the query of the column listing -/

/-- C10 (evaluation at the failing input): the table nodes `db1.t` and `db2.t`
have different ids and `fetchCols` sends the same request for both; its SQL
text names the table `t` and no schema. -/
theorem C10_same_query_for_same_table_name_in_two_schemas :
    nodeDb1T.id ≠ nodeDb2T.id
      ∧ fetchCols_request twoSchemaStore nodeDb1T = fetchCols_request twoSchemaStore nodeDb2T
      ∧ fetchCols_request twoSchemaStore nodeDb1T
          = some
            { method := "POST"
              url := "/sql/1/queries"
              sql := some
                "SELECT COLUMN_NAME, COLUMN_TYPE FROM information_schema.COLUMNS WHERE TABLE_NAME = \"t\";" } := by
  decide

/-! ## C11: an expansion that ends in its failure branch -/

/-- A `fetchTables` whose remote call fails (or whose request cannot be built)
leaves the forest and the completion list as they were. -/
theorem fetchTables_remote_failure (s : Store) (db : DbNode)
    (res : HttpResponse (List String))
    (hfail : firstData res = none ∨ s.query_conn_id_map = none) :
    (fetchTables s db res).db_tree = s.db_tree
      ∧ (fetchTables s db res).db_completion_list = s.db_completion_list := by
  unfold fetchTables fetchTables_request queryRequest fetchTables_response
  cases hc : connIdText s with
  | none => exact ⟨rfl, rfl⟩
  | some id =>
    have hres : firstData res = none := by
      rcases hfail with h | h
      · exact h
      · rw [connIdText_none s h] at hc
        exact Option.noConfusion hc
    simp only [hres]
    exact ⟨rfl, rfl⟩

/-- A `fetchCols` whose remote call fails (or whose request cannot be built)
leaves the forest and the completion list as they were. -/
theorem fetchCols_remote_failure (s : Store) (tbl : TblNode)
    (res : HttpResponse (String × String))
    (hfail : firstData res = none ∨ s.query_conn_id_map = none) :
    (fetchCols s tbl res).db_tree = s.db_tree
      ∧ (fetchCols s tbl res).db_completion_list = s.db_completion_list := by
  unfold fetchCols fetchCols_request queryRequest
  cases hc : connIdText s with
  | none => exact ⟨rfl, rfl⟩
  | some id =>
    have hres : firstData res = none := by
      rcases hfail with h | h
      · exact h
      · rw [connIdText_none s h] at hc
        exact Option.noConfusion hc
    simp only []
    unfold fetchCols_response
    cases res with
    | rejected => exact ⟨rfl, rfl⟩
    | noData => exact ⟨rfl, rfl⟩
    | malformed => exact ⟨rfl, rfl⟩
    | ok results =>
      simp only [hres]
      exact ⟨rfl, rfl⟩

/-- A `fetchTables` whose listing succeeds while the object `db` is not in the
forest ends in the catch block with the forest as it was and the completion
list already extended by the TABLE entries of the answer. -/
theorem fetchTables_not_located (s : Store) (db : DbNode) (res : HttpResponse (List String))
    (data : List (List String)) (hm : s.query_conn_id_map ≠ none)
    (hres : firstData res = some data) (hidx : dbIndexOf s.db_tree db = none) :
    (fetchTables s db res).db_tree = s.db_tree
      ∧ (fetchTables s db res).db_completion_list
          = s.db_completion_list ++ tableEntries data.flatten
      ∧ (fetchTables s db res).log = s.log ++ ["store-query-fetchTables"] := by
  obtain ⟨id, hid⟩ := connIdText_isSome s hm
  have hidx2 : dbIndexOf
      (UPDATE_DB_CMPL_LIST { s with nextRef := s.nextRef + data.flatten.length }
        (tableEntries data.flatten)).db_tree db = none := hidx
  unfold fetchTables fetchTables_request queryRequest fetchTables_response
  simp only [hid, hres, hidx2, UPDATE_DB_CHILDREN, immutableUpdateChildren]
  exact ⟨rfl, rfl, rfl⟩

/-- A `fetchCols` whose listing succeeds while no schema node has the id
`tbl.id.split('.')[0]` ends in the catch block with the forest as it was and the
completion list already extended by the COLUMN entries of the answer. -/
theorem fetchCols_not_located (s : Store) (tbl : TblNode)
    (res : HttpResponse (String × String)) (cols : List (String × String))
    (hm : s.query_conn_id_map ≠ none) (hres : firstData res = some cols)
    (hfind : findIndex (fun d => d.id == splitFirst tbl.id) s.db_tree = none) :
    (fetchCols s tbl res).db_tree = s.db_tree
      ∧ (fetchCols s tbl res).db_completion_list
          = s.db_completion_list ++ columnEntries cols
      ∧ (fetchCols s tbl res).log = s.log ++ ["store-query-fetchCols"] := by
  obtain ⟨id, hid⟩ := connIdText_isSome s hm
  unfold fetchCols fetchCols_request queryRequest
  simp only [hid]
  cases res with
  | rejected => exact Option.noConfusion hres
  | noData => exact Option.noConfusion hres
  | malformed => exact Option.noConfusion hres
  | ok results =>
    unfold fetchCols_response
    simp only [hres, hfind]
    exact ⟨rfl, rfl, rfl⟩

/-- C11 (evaluation at the failing input): in `reloadedStore` no schema node has
the id `db1`, the first segment of the id of the table node `db1.t`. A
`fetchCols` for that node whose column listing succeeds ends in its failure
branch (the logger of `fetchCols` is the one entry added to the log) and leaves
the forest as it was, but the completion list is no longer what it was: the
COLUMN entries of the answer have been appended to it. -/
theorem C11_failed_expansion_has_appended_completion_entries :
    findIndex (fun d => d.id == splitFirst nodeDb1T.id) reloadedStore.db_tree = none
      ∧ (fetchCols reloadedStore nodeDb1T columnsOfT).log
          = reloadedStore.log ++ ["store-query-fetchCols"]
      ∧ (fetchCols reloadedStore nodeDb1T columnsOfT).db_tree = reloadedStore.db_tree
      ∧ reloadedStore.db_completion_list
          = [{ label := "other", detail := "SCHEMA", insertText := "other", type := "schema" }]
      ∧ (fetchCols reloadedStore nodeDb1T columnsOfT).db_completion_list
          = [{ label := "other", detail := "SCHEMA", insertText := "other", type := "schema" },
              { label := "id", detail := "COLUMN", insertText := "id", type := "column" },
              { label := "name", detail := "COLUMN", insertText := "name", type := "column" }]
      ∧ (fetchCols reloadedStore nodeDb1T columnsOfT).db_completion_list
          ≠ reloadedStore.db_completion_list := by
  decide

end QueryStore
